import Mathlib

/-!
Shallow embedding of `src/thonny/running.py` (`_BackendProxy`): the process
supervisor that owns the worker process handle, the message inbox (a deque of
parsed messages) and the state machine, for the claims about
`fetch_next_message`, `send_command`, `_kill_current_process`,
`_start_new_process` and `_listen_stdout`.

Python values are modelled as follows: `None` for an attribute of type T is
`Option T`; the `collections.deque` inbox is a `List Msg` (popleft = head,
appendleft = cons, append = snoc); a parsed message dict is a record whose
optional key `cwd` is an `Option String`; the state attribute `_state`
(initially Python `None`, written with the strings "running",
"waiting_toplevel_command", "waiting_debug_command", "waiting_input") is an
`Option String`, `none` being the spec state called `not_started`.
External collaborators (`thonny.common.serialize_message`, `os.environ`,
`os.path.exists`, `os.path.expanduser`, `sys.executable`) are fields of a
`Config` parameter.
-/

namespace Thonny

/-- `COMMUNICATION_ENCODING = "UTF-8"` in running.py. -/
def COMMUNICATION_ENCODING : String := "UTF-8"

/-- A parsed worker message (a dict produced by `parse_message`): required key
`message_type`; keys `stream_name` and `data` (read only on Output messages);
optional key `cwd` (`none` models the key being absent). -/
structure Msg where
  message_type : String
  stream_name : String
  data : String
  cwd : Option String
deriving DecidableEq, Repr

/-- A command submitted to `send_command`: the four command classes of
`thonny.common` used by running.py. Optional fields model `hasattr`. -/
inductive Cmd where
  | toplevel (command : String) (filename : Option String)
      (args : Option (List String)) (path : Option String)
  | debugger (command : String)
  | inline (command : String)
  | inputSubmission (data : String)
deriving DecidableEq, Repr

/-- The worker process handle (`subprocess.Popen` result): `alive` is true
exactly when `poll()` returns `None`. -/
structure Proc where
  alive : Bool
deriving DecidableEq, Repr

/-- The `_BackendProxy` instance attributes set in `__init__`:
`cwd`, `thonny_dir`, `_proc`, `_state`, `_message_queue`
(the lock `_state_lock` has no observable content in this sequential model). -/
structure Proxy where
  cwd : String
  thonny_dir : String
  _proc : Option Proc
  _state : Option String
  _message_queue : Option (List Msg)
deriving DecidableEq, Repr

/-- External collaborators of running.py, passed as parameters:
`serialize` is `thonny.common.serialize_message`; `environ` is
`os.environ` as an association list; `path_exists` is `os.path.exists`;
`home_dir` is `os.path.expanduser("~")`; `sys_executable` is
`sys.executable`. -/
structure Config where
  serialize : Cmd → String
  environ : List (String × String)
  path_exists : String → Bool
  home_dir : String
  sys_executable : String

/-- The observable parameters of the `subprocess.Popen` call in
`_start_new_process`: argument list, environment, working directory. -/
structure StartInfo where
  cmd_line : List String
  env : List (String × String)
  cwd : String
deriving DecidableEq, Repr

/-- Observable side effects of `send_command`, in program order:
a `_set_state` call, an actual `kill()` of a live process, a `Popen` launch,
a write to the worker's stdin. -/
inductive Event where
  | setState (s : String)
  | kill
  | start (info : StartInfo)
  | write (line : String)
deriving DecidableEq, Repr

/-- Result of a `send_command` call: the proxy after all mutations that
happened, the side effects in order, and `ok := false` when the call raised
`AttributeError` at `self._proc.stdin.write` because `_proc` was `None`
(mutations made before the raise persist in `proxy`). -/
structure SendResult where
  proxy : Proxy
  events : List Event
  ok : Bool

/-- `_BackendProxy.__init__(default_cwd, main_dir)`. -/
def _BackendProxy_init (cfg : Config) (default_cwd main_dir : String) : Proxy :=
  { cwd := if cfg.path_exists default_cwd then default_cwd else cfg.home_dir
    thonny_dir := main_dir
    _proc := none
    _state := none
    _message_queue := none }

/-- `get_state`. -/
def get_state (p : Proxy) : Option String :=
  p._state

/-- `get_cwd` (exposed on `Runner` as `self._proxy.cwd`). -/
def get_cwd (p : Proxy) : String :=
  p.cwd

/-- `_set_state(state)`: assigns only when different (the result is the same
either way; the guard only controls a debug log). -/
def _set_state (p : Proxy) (state : String) : Proxy :=
  if p._state ≠ some state then { p with _state := some state } else p

/-- The inner `while True` loop of `fetch_next_message`, entered when the
popped head `msg` is an Output message: keep popping while the next message
is an Output message with the same `stream_name`, concatenating its `data`;
a non-matching message is pushed back (`appendleft`) and the loop returns. -/
def coalesce_loop (msg : Msg) : List Msg → Msg × List Msg
  | [] => (msg, [])
  | next_msg :: rest =>
      if next_msg.message_type = "Output" ∧ next_msg.stream_name = msg.stream_name then
        coalesce_loop { msg with data := msg.data ++ next_msg.data } rest
      else
        (msg, next_msg :: rest)

/-- `fetch_next_message`: returns `None` when `self._message_queue` is falsy
(Python `None` or an empty deque); otherwise pops the head and, if it is an
Output message, coalesces following same-stream Output messages into it.
Returned alongside is the proxy with the updated queue. -/
def fetch_next_message (p : Proxy) : Option Msg × Proxy :=
  match p._message_queue with
  | none => (none, p)
  | some [] => (none, p)
  | some (msg :: rest) =>
      if msg.message_type = "Output" then
        let r := coalesce_loop msg rest
        (some r.1, { p with _message_queue := some r.2 })
      else
        (some msg, { p with _message_queue := some rest })

/-- `_kill_current_process`: if a process exists and `poll()` is `None`
(still alive), kill it and drop both the handle and the message queue;
otherwise do nothing. Also reports whether a `kill()` happened. -/
def _kill_current_process (p : Proxy) : Proxy × List Event :=
  match p._proc with
  | some proc =>
      if proc.alive then
        ({ p with _proc := none, _message_queue := none }, [Event.kill])
      else
        (p, [])
  | none => (p, [])

/-- `"sub" in s` for strings (Python substring test), via `splitOn`. -/
def str_contains (s sub : String) : Bool :=
  (s.splitOn sub).length ≠ 1

/-- `os.path.basename` for POSIX paths. -/
def path_basename (p : String) : String :=
  (p.splitOn "/").getLastD ""

/-- `os.path.dirname` for POSIX paths. -/
def path_dirname (p : String) : String :=
  String.intercalate "/" (p.splitOn "/").dropLast

/-- `os.path.join a b` for POSIX paths. -/
def path_join (a b : String) : String :=
  if "/".isPrefixOf b then b
  else if a.endsWith "/" then a ++ b
  else a ++ "/" ++ b

/-- Dict assignment `e[k] = v` on an environment association list. -/
def env_set (e : List (String × String)) (k v : String) : List (String × String) :=
  match e with
  | [] => [(k, v)]
  | (k', v') :: rest => if k' = k then (k, v) :: rest else (k', v') :: env_set rest k v

/-- Dict lookup `e[k]` on an environment association list. -/
def env_lookup (e : List (String × String)) (k : String) : Option String :=
  match e with
  | [] => none
  | (k', v') :: rest => if k' = k then some v' else env_lookup rest k

/-- `my_env` of `_start_new_process`: a copy of `os.environ` with
`PYTHONIOENCODING` set to the communication encoding and
`PYTHONUNBUFFERED` set to "1". -/
def make_env (cfg : Config) : List (String × String) :=
  env_set (env_set cfg.environ "PYTHONIOENCODING" COMMUNICATION_ENCODING)
    "PYTHONUNBUFFERED" "1"

/-- The executable part of `cmd_line` in `_start_new_process`: the frozen
backend next to the frozen frontend when "thonny" occurs in the executable
basename, else the interpreter with `-u` and `thonny_backend.py` from the
installation dir. -/
def base_cmd_line (cfg : Config) (p : Proxy) : List String :=
  if str_contains (path_basename cfg.sys_executable).toLower "thonny" then
    [path_join (path_dirname cfg.sys_executable)
      ((path_basename cfg.sys_executable).replace "frontend" "backend")]
  else
    [cfg.sys_executable, "-u", path_join p.thonny_dir "thonny_backend.py"]

/-- `cmd.filename` when `hasattr(cmd, "filename")`. -/
def cmd_filename : Cmd → Option String
  | Cmd.toplevel _ filename _ _ => filename
  | _ => none

/-- `cmd.args` when `hasattr(cmd, "args")`. -/
def cmd_args : Cmd → Option (List String)
  | Cmd.toplevel _ _ args _ => args
  | _ => none

/-- The arguments appended after the executable in `_start_new_process`:
`cmd.filename` when present, then `cmd.args` when present. -/
def arg_suffix (cmd : Cmd) : List String :=
  match cmd_filename cmd with
  | some f => f :: (cmd_args cmd).getD []
  | none => []

/-- `_start_new_process(cmd)`: installs a fresh empty deque as
`_message_queue`, builds `my_env` and `cmd_line`, launches the worker with
`Popen(cmd_line, ..., cwd=self.cwd, env=my_env)` and stores the live handle.
Returns the proxy and the observable launch parameters. -/
def _start_new_process (cfg : Config) (p : Proxy) (cmd : Cmd) : Proxy × StartInfo :=
  let p1 := { p with _message_queue := some [] }
  let info : StartInfo :=
    { cmd_line := base_cmd_line cfg p1 ++ arg_suffix cmd
      env := make_env cfg
      cwd := p1.cwd }
  ({ p1 with _proc := some { alive := true } }, info)

/-- `isinstance(cmd, ToplevelCommand) or isinstance(cmd, DebuggerCommand)
or isinstance(cmd, InputSubmission)`: the commands that force
`_set_state("running")` in `send_command`. -/
def is_state_forcing : Cmd → Bool
  | Cmd.toplevel _ _ _ _ => true
  | Cmd.debugger _ => true
  | Cmd.inputSubmission _ => true
  | Cmd.inline _ => false

/-- `isinstance(cmd, ToplevelCommand) and cmd.command in ("Run", "Debug",
"Reset")`: the commands that make `send_command` kill and restart the
worker. -/
def is_restart_cmd : Cmd → Bool
  | Cmd.toplevel c _ _ _ => c = "Run" ∨ c = "Debug" ∨ c = "Reset"
  | _ => false

/-- `send_command(cmd)`: under the state lock, set state "running" for
state-forcing commands, kill and restart the worker for Run/Debug/Reset
toplevel commands, then write the serialized command line (newline
terminated) to the worker's stdin and flush. When `_proc` is `None` at the
write, the call fails (`ok := false`) with the earlier mutations kept. -/
def send_command (cfg : Config) (p : Proxy) (cmd : Cmd) : SendResult :=
  let s1 :=
    if is_state_forcing cmd then
      (_set_state p "running", [Event.setState "running"])
    else
      (p, [])
  let s2 :=
    if is_restart_cmd cmd then
      let k := _kill_current_process s1.1
      let st := _start_new_process cfg k.1 cmd
      (st.1, k.2 ++ [Event.start st.2])
    else
      (s1.1, [])
  match s2.1._proc with
  | none => { proxy := s2.1, events := s1.2 ++ s2.2, ok := false }
  | some _ =>
      { proxy := s2.1
        events := s1.2 ++ s2.2 ++ [Event.write (cfg.serialize cmd ++ "\n")]
        ok := true }

/-- `send_program_input(data)`. -/
def send_program_input (cfg : Config) (p : Proxy) (data : String) : SendResult :=
  send_command cfg p (Cmd.inputSubmission data)

/-- The body of the `_listen_stdout` loop for one parsed message `msg`
(after `parse_message`): update `self.cwd` when the message carries a `cwd`
key, then append `msg` to `_message_queue` and apply the receive-side state
transition under the lock. When `_message_queue` is `None` (the reader
belongs to a generation already torn down) the append raises
`AttributeError`: the second component is `false` and only the cwd update
persists. -/
def process_incoming (p : Proxy) (msg : Msg) : Proxy × Bool :=
  let p1 :=
    match msg.cwd with
    | some c => { p with cwd := c }
    | none => p
  match p1._message_queue with
  | none => (p1, false)
  | some q =>
      let p2 := { p1 with _message_queue := some (q ++ [msg]) }
      if msg.message_type = "ToplevelResult" then
        (_set_state p2 "waiting_toplevel_command", true)
      else if msg.message_type = "DebuggerProgress" then
        (_set_state p2 "waiting_debug_command", true)
      else if msg.message_type = "InputRequest" then
        (_set_state p2 "waiting_input", true)
      else
        (p2, true)

/-- One externally triggered step of the supervisor: a `send_command` call,
the stdout reader processing one line, a `_kill_current_process` call, or
the worker process exiting on its own (its `poll()` starts returning an
exit code; no proxy attribute other than the handle's liveness changes). -/
inductive Act where
  | send (cmd : Cmd)
  | recv (msg : Msg)
  | kill
  | procExit
deriving Repr

/-- Apply one step to the proxy. -/
def stepAct (cfg : Config) (p : Proxy) : Act → Proxy
  | Act.send cmd => (send_command cfg p cmd).proxy
  | Act.recv msg => (process_incoming p msg).1
  | Act.kill => (_kill_current_process p).1
  | Act.procExit =>
      match p._proc with
      | some _ => { p with _proc := some { alive := false } }
      | none => p

/-- Run a sequence of steps from a proxy. -/
def run (cfg : Config) (p : Proxy) : List Act → Proxy
  | [] => p
  | a :: rest => run cfg (stepAct cfg p a) rest

/-- The five values `get_state` may take: Python `None` (the spec state
`not_started`) and the four strings written by `_set_state`. -/
def state_domain : List (Option String) :=
  [none, some "running", some "waiting_input",
   some "waiting_debug_command", some "waiting_toplevel_command"]

/-- Concatenation of the `data` fields of a list of messages. -/
def join_data : List Msg → String
  | [] => ""
  | m :: rest => m.data ++ join_data rest

/-- `self._proc is not None and self._proc.poll() is None`: a live worker. -/
def proc_alive (p : Proxy) : Bool :=
  match p._proc with
  | some pr => pr.alive
  | none => false

/-- A sample configuration used to instantiate universally quantified
theorems at concrete inputs. -/
def exCfg : Config :=
  { serialize := fun _ => "SER"
    environ := [("PATH", "/usr/bin"), ("PYTHONIOENCODING", "latin-1")]
    path_exists := fun _ => true
    home_dir := "/home/user"
    sys_executable := "/usr/bin/python3" }

/-- Sample Output message: stream "stdout", data "a". -/
def msgOutA : Msg :=
  { message_type := "Output", stream_name := "stdout", data := "a", cwd := none }

/-- Sample Output message: stream "stdout", data "b". -/
def msgOutB : Msg :=
  { message_type := "Output", stream_name := "stdout", data := "b", cwd := none }

/-- Sample Output message: stream "stdout", data "x". -/
def msgOutX : Msg :=
  { message_type := "Output", stream_name := "stdout", data := "x", cwd := none }

/-- Sample Output message: stream "stderr", data "y". -/
def msgOutErrY : Msg :=
  { message_type := "Output", stream_name := "stderr", data := "y", cwd := none }

/-- Sample ToplevelResult message. -/
def msgTLR : Msg :=
  { message_type := "ToplevelResult", stream_name := "", data := "", cwd := none }

/-- Sample message of a worker-defined kind carrying a `cwd` key. -/
def msgCwd : Msg :=
  { message_type := "SomeOtherKind", stream_name := "", data := "", cwd := some "/tmp/x" }

/-- Sample restart-triggering toplevel command. -/
def cmdRun : Cmd :=
  Cmd.toplevel "Run" (some "a.py") (some ["--flag"]) none

/-- A proxy with a live worker and a given message queue, used to instantiate
universally quantified theorems at concrete inputs. -/
def proxy_with_queue (q : Option (List Msg)) : Proxy :=
  { cwd := "/w"
    thonny_dir := "/t"
    _proc := some { alive := true }
    _state := some "running"
    _message_queue := q }

/- ------------------------------------------------------------------ -/
/- Helper lemmas                                                       -/
/- ------------------------------------------------------------------ -/

theorem str_append_assoc (a b c : String) : a ++ b ++ c = a ++ (b ++ c) := by
  apply String.ext
  simp

theorem set_state_eq (p : Proxy) (s : String) :
    _set_state p s = { p with _state := some s } := by
  rcases p with ⟨cwd, td, pr, st, q⟩
  unfold _set_state
  by_cases h : st = some s <;> simp [h]

theorem coalesce_loop_stop (msg stop : Msg) (pre rest : List Msg)
    (hpre : ∀ m ∈ pre, m.message_type = "Output" ∧ m.stream_name = msg.stream_name)
    (hstop : ¬(stop.message_type = "Output" ∧ stop.stream_name = msg.stream_name)) :
    coalesce_loop msg (pre ++ stop :: rest)
      = ({ msg with data := msg.data ++ join_data pre }, stop :: rest) := by
  induction pre generalizing msg with
  | nil =>
      rcases msg with ⟨mt, sn, d, c⟩
      simp only [List.nil_append, coalesce_loop, if_neg hstop, join_data]
      simp [String.append_empty]
  | cons m pre ih =>
      have hm := hpre m (List.mem_cons_self m pre)
      rw [List.cons_append, coalesce_loop, if_pos ⟨hm.1, hm.2⟩]
      rw [ih { msg with data := msg.data ++ m.data }
            (fun x hx => hpre x (List.mem_cons_of_mem m hx)) hstop]
      simp [join_data, str_append_assoc]

theorem kill_eq (p : Proxy) :
    _kill_current_process p
      = if proc_alive p
        then ({ p with _proc := none, _message_queue := none }, [Event.kill])
        else (p, []) := by
  unfold _kill_current_process proc_alive
  rcases hp : p._proc with _ | pr
  · simp
  · by_cases ha : pr.alive <;> simp [ha]

theorem restart_forcing {cmd : Cmd} (h : is_restart_cmd cmd = true) :
    is_state_forcing cmd = true := by
  cases cmd <;> simp_all [is_restart_cmd, is_state_forcing]

theorem start_eq (cfg : Config) (p : Proxy) (cmd : Cmd) :
    _start_new_process cfg p cmd
      = ({ p with _message_queue := some [], _proc := some { alive := true } },
         { cmd_line := base_cmd_line cfg p ++ arg_suffix cmd
           env := make_env cfg
           cwd := p.cwd }) := by
  rcases p with ⟨cwd, td, pr, st, q⟩
  unfold _start_new_process base_cmd_line
  simp

theorem send_command_eq (cfg : Config) (p : Proxy) (cmd : Cmd) :
    send_command cfg p cmd
      = if is_restart_cmd cmd then
          { proxy :=
              { p with
                  _state := some "running"
                  _message_queue := some []
                  _proc := some { alive := true } }
            events := Event.setState "running" ::
              ((if proc_alive p then [Event.kill] else []) ++
                [Event.start
                  { cmd_line := base_cmd_line cfg p ++ arg_suffix cmd
                    env := make_env cfg
                    cwd := p.cwd },
                 Event.write (cfg.serialize cmd ++ "\n")])
            ok := true }
        else if is_state_forcing cmd then
          match p._proc with
          | none =>
              { proxy := { p with _state := some "running" }
                events := [Event.setState "running"], ok := false }
          | some _ =>
              { proxy := { p with _state := some "running" }
                events := [Event.setState "running",
                           Event.write (cfg.serialize cmd ++ "\n")]
                ok := true }
        else
          match p._proc with
          | none => { proxy := p, events := [], ok := false }
          | some _ =>
              { proxy := p
                events := [Event.write (cfg.serialize cmd ++ "\n")], ok := true } := by
  by_cases hr : is_restart_cmd cmd
  · have hf : is_state_forcing cmd = true := restart_forcing hr
    unfold send_command
    rw [hf, hr]
    simp only [if_true, set_state_eq, kill_eq, start_eq]
    by_cases ha : proc_alive { p with _state := some "running" }
    · have ha' : proc_alive p = true := ha
      rw [if_pos ha]
      simp [ha', base_cmd_line]
    · have ha' : proc_alive p = false := by
        simpa using ha
      rw [if_neg ha]
      simp [ha', base_cmd_line]
  · by_cases hf : is_state_forcing cmd
    · unfold send_command
      rw [hf, if_pos rfl, if_neg hr, set_state_eq]
      rcases hp : p._proc with _ | pr <;> simp [hr, hf, hp]
    · unfold send_command
      rw [if_neg hf, if_neg hr]
      rcases hp : p._proc with _ | pr <;> simp [hr, hf, hp]

theorem env_lookup_set_self (e : List (String × String)) (k v : String) :
    env_lookup (env_set e k v) k = some v := by
  induction e with
  | nil => simp [env_set, env_lookup]
  | cons kv rest ih =>
      obtain ⟨k', v'⟩ := kv
      by_cases h : k' = k <;> simp [env_set, env_lookup, h, ih]

theorem env_lookup_set_other (e : List (String × String)) (k v k2 : String)
    (h : k ≠ k2) :
    env_lookup (env_set e k v) k2 = env_lookup e k2 := by
  induction e with
  | nil => simp [env_set, env_lookup, h]
  | cons kv rest ih =>
      obtain ⟨k', v'⟩ := kv
      by_cases h' : k' = k <;> simp [env_set, env_lookup, h', h, ih]

theorem make_env_unbuffered (cfg : Config) :
    env_lookup (make_env cfg) "PYTHONUNBUFFERED" = some "1" :=
  env_lookup_set_self _ _ _

theorem make_env_ioencoding (cfg : Config) :
    env_lookup (make_env cfg) "PYTHONIOENCODING" = some "UTF-8" := by
  unfold make_env
  rw [env_lookup_set_other _ _ _ _ (by decide)]
  exact env_lookup_set_self _ _ _

/- ------------------------------------------------------------------ -/
/- Claims                                                              -/
/- ------------------------------------------------------------------ -/

/-- Claim C1: coalescing dequeue. With the inbox holding, in order,
`Output{stdout,"a"}`, `Output{stdout,"b"}`, `ToplevelResult`, one
`fetch_next_message` call returns a single Output message with data "ab",
and the next call returns the ToplevelResult message; in general a
non-Output head message is returned as-is, without coalescing. -/
theorem C1_coalescing_dequeue :
    ((fetch_next_message (proxy_with_queue (some [msgOutA, msgOutB, msgTLR]))).1
        = some { message_type := "Output", stream_name := "stdout", data := "ab", cwd := none }
      ∧ (fetch_next_message
          ((fetch_next_message (proxy_with_queue (some [msgOutA, msgOutB, msgTLR]))).2)).1
        = some msgTLR)
    ∧ ∀ (p : Proxy) (msg : Msg) (rest : List Msg),
        p._message_queue = some (msg :: rest) →
        msg.message_type ≠ "Output" →
        fetch_next_message p = (some msg, { p with _message_queue := some rest }) := by
  constructor
  · exact ⟨by decide, by decide⟩
  · intro p msg rest hq hmt
    unfold fetch_next_message
    rw [hq]
    simp [hmt]

/-- Witness for Claim C1: the general non-Output clause evaluated on a queue
holding a single ToplevelResult message. -/
theorem C1_coalescing_dequeue_witness :
    fetch_next_message (proxy_with_queue (some [msgTLR]))
      = (some msgTLR,
         { proxy_with_queue (some [msgTLR]) with _message_queue := some [] }) :=
  C1_coalescing_dequeue.2 (proxy_with_queue (some [msgTLR])) msgTLR [] rfl (by decide)

/-- Claim C2: stream separation. When the head of the queue is an Output
message, `fetch_next_message` coalesces exactly the maximal block of
following Output messages with the same `stream_name`; the first
non-matching message is left at the head of the queue, unconsumed.
In particular `Output{stdout,"x"}` followed by `Output{stderr,"y"}` is
returned as two distinct messages, in order, never merged. -/
theorem C2_stream_separation :
    (∀ (p : Proxy) (msg stop : Msg) (pre rest : List Msg),
        p._message_queue = some (msg :: (pre ++ stop :: rest)) →
        msg.message_type = "Output" →
        (∀ m ∈ pre, m.message_type = "Output" ∧ m.stream_name = msg.stream_name) →
        ¬(stop.message_type = "Output" ∧ stop.stream_name = msg.stream_name) →
        fetch_next_message p
          = (some { msg with data := msg.data ++ join_data pre },
             { p with _message_queue := some (stop :: rest) }))
    ∧ (fetch_next_message (proxy_with_queue (some [msgOutX, msgOutErrY]))).1 = some msgOutX
    ∧ ((fetch_next_message (proxy_with_queue (some [msgOutX, msgOutErrY]))).2)._message_queue
        = some [msgOutErrY]
    ∧ (fetch_next_message
        ((fetch_next_message (proxy_with_queue (some [msgOutX, msgOutErrY]))).2)).1
        = some msgOutErrY := by
  refine ⟨?_, by decide, by decide, by decide⟩
  intro p msg stop pre rest hq hmt hpre hstop
  unfold fetch_next_message
  rw [hq]
  simp only [if_pos hmt]
  rw [coalesce_loop_stop msg stop pre rest hpre hstop]

/-- Witness for Claim C2: the coalescing-stop clause evaluated on the queue
`[Output{stdout,"a"}, Output{stdout,"b"}, ToplevelResult]`. -/
theorem C2_stream_separation_witness :
    fetch_next_message (proxy_with_queue (some [msgOutA, msgOutB, msgTLR]))
      = (some { msgOutA with data := msgOutA.data ++ join_data [msgOutB] },
         { proxy_with_queue (some [msgOutA, msgOutB, msgTLR]) with
            _message_queue := some [msgTLR] }) :=
  C2_stream_separation.1 (proxy_with_queue (some [msgOutA, msgOutB, msgTLR]))
    msgOutA msgTLR [msgOutB] [] rfl rfl (by decide) (by decide)

/-- Claim C3: send-side state transitions. `send_command` sets the state to
"running" if and only if the command is a ToplevelCommand, DebuggerCommand
or InputSubmission; an InlineCommand leaves the state unchanged; and when
the transition happens it is the first side effect of the call, in
particular it precedes the write of the serialized command line. -/
theorem C3_send_state_transitions (cfg : Config) (p : Proxy) (cmd : Cmd) :
    ((send_command cfg p cmd).proxy._state
        = if is_state_forcing cmd then some "running" else p._state)
    ∧ (Event.setState "running" ∈ (send_command cfg p cmd).events
        ↔ is_state_forcing cmd = true)
    ∧ (is_state_forcing cmd = true →
        ∃ rest, (send_command cfg p cmd).events = Event.setState "running" :: rest
          ∧ ((send_command cfg p cmd).ok = true →
              Event.write (cfg.serialize cmd ++ "\n") ∈ rest)) := by
  rw [send_command_eq]
  by_cases hr : is_restart_cmd cmd = true
  · have hf := restart_forcing hr
    rw [if_pos hr]
    refine ⟨by simp [hf], by simp [hf], ?_⟩
    intro _
    exact ⟨_, rfl, fun _ => by simp⟩
  · have hr' : is_restart_cmd cmd = false := by simpa using hr
    rw [if_neg hr]
    by_cases hf : is_state_forcing cmd = true
    · rw [if_pos hf]
      rcases hp : p._proc with _ | pr
      · refine ⟨by simp [hf], by simp [hf], ?_⟩
        intro _
        exact ⟨[], rfl, fun h => by simp at h⟩
      · refine ⟨by simp [hf], by simp [hf], ?_⟩
        intro _
        exact ⟨_, rfl, fun _ => by simp⟩
    · have hf' : is_state_forcing cmd = false := by simpa using hf
      rw [if_neg hf]
      rcases hp : p._proc with _ | pr
      · exact ⟨by simp [hf'], by simp [hf'], fun h => absurd h hf⟩
      · exact ⟨by simp [hf'], by simp [hf'], fun h => absurd h hf⟩

/-- Witness for Claim C3: sending an InputSubmission from a live-worker proxy
sets the state to "running", and the `_set_state` call is the first side
effect of the call. -/
theorem C3_send_state_transitions_witness :
    (send_command exCfg (proxy_with_queue (some []))
        (Cmd.inputSubmission "hi")).proxy._state = some "running"
    ∧ ∃ rest,
        (send_command exCfg (proxy_with_queue (some []))
            (Cmd.inputSubmission "hi")).events
          = Event.setState "running" :: rest := by
  have h := C3_send_state_transitions exCfg (proxy_with_queue (some []))
    (Cmd.inputSubmission "hi")
  refine ⟨by simpa [is_state_forcing] using h.1, ?_⟩
  obtain ⟨rest, hrest, _⟩ := h.2.2 (by decide)
  exact ⟨rest, hrest⟩

/-- Claim C5: restart on Run/Debug/Reset. For a ToplevelCommand named Run,
Debug or Reset, `send_command` kills the live worker (the kill event occurs
exactly when the old worker was alive), then starts a fresh worker before
the write: the new generation has a live handle and an empty inbox, the
launch argument list is the base invocation followed by `arg_suffix cmd`
(the command's filename, then its args, when present), the launch
environment forces `PYTHONIOENCODING=UTF-8` and `PYTHONUNBUFFERED=1`, and
the launch working directory is the supervisor's tracked cwd. For any other
command no kill and no start occurs. -/
theorem C5_restart_on_run_debug_reset (cfg : Config) (p : Proxy) (cmd : Cmd) :
    (is_restart_cmd cmd = true →
      (send_command cfg p cmd).proxy._proc = some { alive := true }
      ∧ (send_command cfg p cmd).proxy._message_queue = some []
      ∧ (send_command cfg p cmd).events
          = Event.setState "running" ::
              ((if proc_alive p then [Event.kill] else []) ++
                [Event.start
                  { cmd_line := base_cmd_line cfg p ++ arg_suffix cmd
                    env := make_env cfg
                    cwd := p.cwd },
                 Event.write (cfg.serialize cmd ++ "\n")])
      ∧ env_lookup (make_env cfg) "PYTHONIOENCODING" = some "UTF-8"
      ∧ env_lookup (make_env cfg) "PYTHONUNBUFFERED" = some "1")
    ∧ (is_restart_cmd cmd = false →
      Event.kill ∉ (send_command cfg p cmd).events
      ∧ (∀ info : StartInfo, Event.start info ∉ (send_command cfg p cmd).events)
      ∧ (send_command cfg p cmd).proxy._proc = p._proc
      ∧ (send_command cfg p cmd).proxy._message_queue = p._message_queue) := by
  constructor
  · intro hr
    rw [send_command_eq, if_pos hr]
    exact ⟨rfl, rfl, rfl, make_env_ioencoding cfg, make_env_unbuffered cfg⟩
  · intro hr
    rw [send_command_eq, if_neg (by simp [hr])]
    by_cases hf : is_state_forcing cmd = true
    · rw [if_pos hf]
      rcases hp : p._proc with _ | pr <;>
        exact ⟨by simp, by simp, rfl, rfl⟩
    · rw [if_neg hf]
      rcases hp : p._proc with _ | pr <;>
        exact ⟨by simp, by simp, hp, rfl⟩

/-- Witness for Claim C5: a Run command from a live-worker proxy yields a
fresh live worker; an inline command leaves the inbox untouched. -/
theorem C5_restart_on_run_debug_reset_witness :
    (send_command exCfg (proxy_with_queue (some [msgTLR])) cmdRun).proxy._proc
        = some { alive := true }
    ∧ (send_command exCfg (proxy_with_queue (some [msgTLR]))
        (Cmd.inline "tkupdate")).proxy._message_queue = some [msgTLR] := by
  constructor
  · exact ((C5_restart_on_run_debug_reset exCfg (proxy_with_queue (some [msgTLR]))
      cmdRun).1 (by decide)).1
  · have h := ((C5_restart_on_run_debug_reset exCfg (proxy_with_queue (some [msgTLR]))
      (Cmd.inline "tkupdate")).2 (by decide)).2.2.2
    simpa [proxy_with_queue] using h

/-- Claim C10: implicit precondition of `send_command`. From a state with no
worker process handle, the call succeeds exactly for the restart-triggering
commands (a ToplevelCommand named Run, Debug or Reset); every other command
reaches the write step with `_proc` still `None` and fails there. -/
theorem C10_send_requires_worker (cfg : Config) (p : Proxy) (cmd : Cmd)
    (h : p._proc = none) :
    (send_command cfg p cmd).ok = is_restart_cmd cmd := by
  rw [send_command_eq]
  by_cases hr : is_restart_cmd cmd = true
  · simp [hr]
  · have hr' : is_restart_cmd cmd = false := by simpa using hr
    by_cases hf : is_state_forcing cmd = true <;> simp [hr', hf, h]

theorem process_incoming_eq_some (p : Proxy) (msg : Msg) (q : List Msg)
    (hq : p._message_queue = some q) :
    (process_incoming p msg).1._message_queue = some (q ++ [msg])
    ∧ (process_incoming p msg).1._state =
        (if msg.message_type = "ToplevelResult" then some "waiting_toplevel_command"
         else if msg.message_type = "DebuggerProgress" then some "waiting_debug_command"
         else if msg.message_type = "InputRequest" then some "waiting_input"
         else p._state)
    ∧ (process_incoming p msg).2 = true := by
  obtain ⟨cwd, td, pr, st, mq⟩ := p
  obtain rfl : mq = some q := hq
  obtain ⟨mt, sn, d, mcwd⟩ := msg
  rcases mcwd with _ | c <;>
    simp only [process_incoming, set_state_eq] <;>
    split_ifs <;> simp

theorem process_incoming_state_mem (p : Proxy) (msg : Msg)
    (h : p._state ∈ state_domain) :
    (process_incoming p msg).1._state ∈ state_domain := by
  obtain ⟨cwd, td, pr, st, mq⟩ := p
  obtain ⟨mt, sn, d, mcwd⟩ := msg
  rcases mcwd with _ | c <;> rcases mq with _ | q <;>
    simp only [process_incoming, set_state_eq] <;>
    first
      | (split_ifs <;> simp_all [state_domain])
      | simpa using h

theorem send_command_state (cfg : Config) (p : Proxy) (cmd : Cmd) :
    (send_command cfg p cmd).proxy._state
      = if is_state_forcing cmd then some "running" else p._state := by
  rw [send_command_eq]
  by_cases hr : is_restart_cmd cmd = true
  · simp [hr, restart_forcing hr]
  · have hr' : is_restart_cmd cmd = false := by simpa using hr
    by_cases hf : is_state_forcing cmd = true
    · rcases hp : p._proc with _ | pr <;> simp [hr', hf]
    · have hf' : is_state_forcing cmd = false := by simpa using hf
      rcases hp : p._proc with _ | pr <;> simp [hr', hf']

theorem state_domain_step (cfg : Config) (p : Proxy) (a : Act)
    (h : p._state ∈ state_domain) : (stepAct cfg p a)._state ∈ state_domain := by
  cases a with
  | send cmd =>
      have hs := send_command_state cfg p cmd
      show (send_command cfg p cmd).proxy._state ∈ state_domain
      rw [hs]
      by_cases hf : is_state_forcing cmd = true
      · simp [hf, state_domain]
      · have hf' : is_state_forcing cmd = false := by simpa using hf
        simpa [hf'] using h
  | recv msg => exact process_incoming_state_mem p msg h
  | kill =>
      show (_kill_current_process p).1._state ∈ state_domain
      rw [kill_eq]
      split_ifs <;> simpa using h
  | procExit =>
      show (match p._proc with
            | some _ => { p with _proc := some { alive := false } }
            | none => p)._state ∈ state_domain
      rcases hp : p._proc with _ | pr <;> simpa using h

theorem state_domain_run (cfg : Config) (p : Proxy) (acts : List Act)
    (h : p._state ∈ state_domain) : (run cfg p acts)._state ∈ state_domain := by
  induction acts generalizing p with
  | nil => exact h
  | cons a rest ih => exact ih _ (state_domain_step cfg p a h)

/-- Claim C4: receive-side state transitions. For every message the output
reader appends to the inbox, the new state is a function of the message's
`message_type` alone: ToplevelResult gives "waiting_toplevel_command",
DebuggerProgress gives "waiting_debug_command", InputRequest gives
"waiting_input", and any other kind leaves the state unchanged. -/
theorem C4_receive_state_transitions (p : Proxy) (msg : Msg) (q : List Msg)
    (hq : p._message_queue = some q) :
    ((process_incoming p msg).1._state =
        (if msg.message_type = "ToplevelResult" then some "waiting_toplevel_command"
         else if msg.message_type = "DebuggerProgress" then some "waiting_debug_command"
         else if msg.message_type = "InputRequest" then some "waiting_input"
         else p._state))
    ∧ (process_incoming p msg).1._message_queue = some (q ++ [msg]) := by
  have h := process_incoming_eq_some p msg q hq
  exact ⟨h.2.1, h.1⟩

/-- Witness for Claim C4: a ToplevelResult message processed with an empty
active inbox sets the state to "waiting_toplevel_command". -/
theorem C4_receive_state_transitions_witness :
    (process_incoming (proxy_with_queue (some [])) msgTLR).1._state
      = some "waiting_toplevel_command" := by
  have h := (C4_receive_state_transitions (proxy_with_queue (some [])) msgTLR [] rfl).1
  rw [h]
  decide

/-- Claim C6: state domain and initial value. Immediately after construction
`get_state` returns Python `None` — the spec state `not_started` — and after
any sequence of supervisor steps (command sends, received messages, kills,
worker exits) `get_state` returns one of the five values of `state_domain`:
`none` (`not_started`), "running", "waiting_input", "waiting_debug_command",
"waiting_toplevel_command". -/
theorem C6_state_domain (cfg : Config) (d m : String) (acts : List Act) :
    get_state (_BackendProxy_init cfg d m) = none
    ∧ get_state (run cfg (_BackendProxy_init cfg d m) acts) ∈ state_domain := by
  refine ⟨rfl, ?_⟩
  exact state_domain_run cfg _ acts (by simp [_BackendProxy_init, state_domain])

/-- Claim C7: cwd propagation. For every message processed by the output
reader, the tracked working directory becomes the message's `cwd` field when
that key is present — whatever the `message_type` — and stays unchanged when
the key is absent (this holds even for a reader of a torn-down generation,
because the cwd update precedes the inbox append). -/
theorem C7_cwd_propagation (p : Proxy) (msg : Msg) :
    get_cwd (process_incoming p msg).1 = msg.cwd.getD (get_cwd p) := by
  obtain ⟨cwd, td, pr, st, mq⟩ := p
  obtain ⟨mt, sn, d, mcwd⟩ := msg
  rcases mcwd with _ | c <;> rcases mq with _ | q <;>
    simp only [process_incoming, get_cwd, set_state_eq] <;>
    first
      | (split_ifs <;> simp)
      | simp

/-- Witness for Claim C10: from a freshly constructed proxy (no worker), an
inline "tkupdate" command fails at the write while a Run command succeeds. -/
theorem C10_send_requires_worker_witness :
    (send_command exCfg (_BackendProxy_init exCfg "/w" "/t")
        (Cmd.inline "tkupdate")).ok = false
    ∧ (send_command exCfg (_BackendProxy_init exCfg "/w" "/t") cmdRun).ok = true := by
  constructor
  · have h := C10_send_requires_worker exCfg (_BackendProxy_init exCfg "/w" "/t")
      (Cmd.inline "tkupdate") rfl
    simpa [is_restart_cmd] using h
  · have h := C10_send_requires_worker exCfg (_BackendProxy_init exCfg "/w" "/t")
      cmdRun rfl
    simpa [cmdRun, is_restart_cmd] using h

/-- Claim C8: kill idempotence and effect. `_kill_current_process` is a no-op
(with no error) when there is no process handle or the process has already
exited; when the worker is alive it kills it, drops the handle and drops the
message queue (discarding any unconsumed messages). -/
theorem C8_kill_idempotent (p : Proxy) :
    (p._proc = none → _kill_current_process p = (p, []))
    ∧ (∀ pr : Proc, p._proc = some pr → pr.alive = false →
        _kill_current_process p = (p, []))
    ∧ (∀ pr : Proc, p._proc = some pr → pr.alive = true →
        _kill_current_process p
          = ({ p with _proc := none, _message_queue := none }, [Event.kill])) := by
  refine ⟨?_, ?_, ?_⟩
  · intro h
    have hpa : proc_alive p = false := by simp [proc_alive, h]
    simp [kill_eq, hpa]
  · intro pr h ha
    have hpa : proc_alive p = false := by simp [proc_alive, h, ha]
    simp [kill_eq, hpa]
  · intro pr h ha
    have hpa : proc_alive p = true := by simp [proc_alive, h, ha]
    simp [kill_eq, hpa]

/-- Witness for Claim C8: killing a proxy with a live worker drops the handle
and the queue; killing a freshly constructed proxy (no worker) is a no-op. -/
theorem C8_kill_idempotent_witness :
    _kill_current_process (proxy_with_queue (some [msgTLR]))
      = ({ proxy_with_queue (some [msgTLR]) with
            _proc := none, _message_queue := none }, [Event.kill])
    ∧ _kill_current_process (_BackendProxy_init exCfg "/w" "/t")
      = (_BackendProxy_init exCfg "/w" "/t", []) := by
  constructor
  · exact (C8_kill_idempotent (proxy_with_queue (some [msgTLR]))).2.2
      { alive := true } rfl rfl
  · exact (C8_kill_idempotent (_BackendProxy_init exCfg "/w" "/t")).1 rfl

/-- Refutation of Claim C9 as stated: "fetch_next_message returns empty ...
after the worker process has exited". Reachable run: start a worker with a
Run command, let the reader enqueue a ToplevelResult, then let the worker
process exit. The process has exited (`poll()` no longer `None`), yet
`fetch_next_message` returns the residual ToplevelResult message, not
empty. -/
theorem C9_counterexample :
    ((run exCfg (_BackendProxy_init exCfg "/w" "/t")
        [Act.send cmdRun, Act.recv msgTLR, Act.procExit])._proc
      = some { alive := false })
    ∧ (fetch_next_message (run exCfg (_BackendProxy_init exCfg "/w" "/t")
        [Act.send cmdRun, Act.recv msgTLR, Act.procExit])).1 = some msgTLR := by
  exact ⟨by decide, by decide⟩

/-- Claim C9 as amended: `fetch_next_message` returns empty exactly when the
message queue attribute is `None` or an empty deque — in particular before
the first worker is started and right after the current worker has been
killed. (After a mere process exit the queue attribute survives, so residual
messages are still returned; see the counterexample.) -/
theorem C9_empty_fetch (cfg : Config) (d m : String) (p : Proxy) :
    ((fetch_next_message p).1 = none ↔
      (p._message_queue = none ∨ p._message_queue = some []))
    ∧ (fetch_next_message (_BackendProxy_init cfg d m)).1 = none
    ∧ (proc_alive p = true →
        (fetch_next_message (_kill_current_process p).1).1 = none) := by
  refine ⟨⟨?_, ?_⟩, rfl, ?_⟩
  · intro h
    rcases hq : p._message_queue with _ | q
    · exact Or.inl rfl
    rcases q with _ | ⟨m0, rest⟩
    · exact Or.inr rfl
    · exfalso
      unfold fetch_next_message at h
      rw [hq] at h
      by_cases hm : m0.message_type = "Output" <;> simp [hm] at h
  · intro h
    rcases h with h | h <;> simp [fetch_next_message, h]
  · intro ha
    rw [kill_eq, if_pos ha]
    rfl

/-- Witness for Claim C9 (amended): after killing a live worker whose inbox
still holds a ToplevelResult message, `fetch_next_message` returns empty. -/
theorem C9_empty_fetch_witness :
    (fetch_next_message
      (_kill_current_process (proxy_with_queue (some [msgTLR]))).1).1 = none :=
  (C9_empty_fetch exCfg "/w" "/t" (proxy_with_queue (some [msgTLR]))).2.2 rfl

end Thonny
